import Mathlib

/-!
Verification of the smart-thermostat climate-control core.

The Go source is shallowly embedded:
* temperatures, energies and the simulated random draw are rationals
  (the Go code only compares and linearly combines `float64` values,
  so `ℚ` models every comparison exactly);
* `time.Time` values are whole seconds as `Nat`, with `0` standing for
  Go's zero `time.Time` (`IsZero`); Go's `time.Now()` is never the zero
  time, so clock arguments come with a `0 < now` hypothesis where that
  matters;
* the global mutable state (`hvacState`, `startTime`, `lastEnergyLog`,
  `ecoStats`, and the `energy_logs` table) is one explicit record
  `SysState`; the sensor globals (`sensorHealth`, `errorCount`,
  `lastReading`) are a record `SensorState`;
* `rand.Float64()` is an explicit argument `r`; the real generator
  satisfies `0 ≤ r < 1`, which theorems assume where relevant;
* `db.Exec` on `energy_logs` appends an `EnergyRecord` to a list;
  `LogEvent`, notification and audit writes are I/O with no effect on
  the modelled state and are omitted.

The repository contains two revisions of the controller: `hvac.go`
(eco-mode hysteresis, whose tick is `UpdateHVACLogicWithEco`) and the
energy-fix revision (whose tick is `UpdateHVACLogic`, with the periodic
flush `logPeriodicRuntime` and the guarded final flush `logRuntime`).
Both are embedded; functions whose names collide across the two files
get an `Eco` suffix for the `hvac.go` variant.
-/

namespace Thermostat

/-- HVAC operating mode (`HVACMode` string constants in `hvac.go`). -/
inductive HVACMode where
  | off
  | heat
  | cool
  | fan
deriving DecidableEq, Repr

/-- The mutable climate record `HVACState` (`hvac.go`); the energy-fix
revision has the same fields minus `EcoMode`, which its functions simply
never touch. -/
structure HVACState where
  mode : HVACMode
  targetTemp : ℚ
  currentTemp : ℚ
  isRunning : Bool
  lastUpdate : Nat
  ecoMode : Bool
deriving DecidableEq, Repr

/-- `EcoModeStats` (`hvac.go`). -/
structure EcoModeStats where
  energySaved : ℚ
  cyclesSaved : Nat
  activeSince : Nat
deriving DecidableEq, Repr

/-- One row of the `energy_logs` table written by `logRuntime` /
`logPeriodicRuntime`. -/
structure EnergyRecord where
  hvacMode : HVACMode
  runtimeMinutes : Nat
  estimatedKwh : ℚ
deriving DecidableEq, Repr

/-- The controller's global mutable state: `hvacState`, the two
run-interval timestamps `startTime` and `lastEnergyLog`, `ecoStats`,
and the `energy_logs` table contents. -/
structure SysState where
  hvac : HVACState
  startTime : Nat
  lastEnergyLog : Nat
  ecoStats : EcoModeStats
  energyLogs : List EnergyRecord
deriving DecidableEq, Repr

/-- The fields of `User` (`user.go`) that the climate operations read. -/
structure User where
  username : String
  role : String
deriving DecidableEq, Repr

/-- The sensor globals of `sensor.go`: `sensorHealth`, `errorCount` and
the temperature/timestamp of `lastReading`. -/
structure SensorState where
  sensorHealth : Bool
  errorCount : Nat
  lastTemp : ℚ
  lastTimestamp : Nat
deriving DecidableEq, Repr

/-- Go's `html.EscapeString` character table (`&`, `'`, `<`, `>`, `"`,
compared by code point to keep the escaped characters out of literals). -/
def escapeChar (c : Char) : String :=
  if c.toNat = 38 then "&amp;"
  else if c.toNat = 39 then "&#39;"
  else if c.toNat = 60 then "&lt;"
  else if c.toNat = 62 then "&gt;"
  else if c.toNat = 34 then "&#34;"
  else String.singleton c

/-- Go's `unicode.IsSpace` over the Latin-1 range (space, the five ASCII
control whitespace characters, NEL, NBSP); the higher Unicode space
code points never occur in the mode names this validates. -/
def isSpaceChar (c : Char) : Bool :=
  c.toNat = 32 ∨ (9 ≤ c.toNat ∧ c.toNat ≤ 13) ∨ c.toNat = 133 ∨ c.toNat = 160

/-- `strings.TrimSpace`, structurally on the character list. -/
def trimSpace (s : String) : String :=
  String.mk (((s.data.dropWhile isSpaceChar).reverse.dropWhile isSpaceChar).reverse)

/-- `SanitizeInput` (`database.go`): `strings.TrimSpace` then
`html.EscapeString`. -/
def SanitizeInput (input : String) : String :=
  String.join ((trimSpace input).data.map escapeChar)

/-- `ValidateTemperatureInput` (`database.go`): rejects temperatures
outside `[10, 35]` with the out-of-range error, `none` meaning `nil`. -/
def ValidateTemperatureInput (temp : ℚ) : Option String :=
  if temp < 10 ∨ temp > 35 then some "temperature out of safe range (10-35°C)"
  else none

/-- The conversion `HVACMode(mode)` followed by the four-way comparison
in `SetHVACMode`: `none` is the `invalid HVAC mode` case. -/
def toHVACMode (s : String) : Option HVACMode :=
  if s = "off" then some HVACMode.off
  else if s = "heat" then some HVACMode.heat
  else if s = "cool" then some HVACMode.cool
  else if s = "fan" then some HVACMode.fan
  else none

/-- `InitializeHVAC` (`hvac.go`): resets `hvacState` and `ecoStats`;
it does not touch `startTime`, `lastEnergyLog` or the energy log table. -/
def InitializeHVAC (s : SysState) (now : Nat) : SysState :=
  { s with
    hvac := { mode := HVACMode.off, targetTemp := 22, currentTemp := 20,
              isRunning := false, lastUpdate := now, ecoMode := false },
    ecoStats := { energySaved := 0, cyclesSaved := 0, activeSince := 0 } }

/-- `SetHVACMode` (identical in both revisions): sanitize, validate the
mode string, store the mode and `lastUpdate`, and force `isRunning :=
false` when the new mode is `off`.  The second component is the returned
`error`. -/
def SetHVACMode (s : SysState) (modeStr : String) (u : User) (now : Nat) :
    SysState × Option String :=
  match toHVACMode (SanitizeInput modeStr) with
  | none => (s, some "invalid HVAC mode")
  | some m =>
      ({ s with hvac := { s.hvac with
           mode := m,
           lastUpdate := now,
           isRunning := if m = HVACMode.off then false else s.hvac.isRunning } },
       none)

/-- `SetTargetTemperature` (identical in both revisions): validate, then
store the target and `lastUpdate`; on validation failure the state is
returned untouched together with the error. -/
def SetTargetTemperature (s : SysState) (temp : ℚ) (u : User) (now : Nat) :
    SysState × Option String :=
  match ValidateTemperatureInput temp with
  | some e => (s, some e)
  | none =>
      ({ s with hvac := { s.hvac with targetTemp := temp, lastUpdate := now } },
       none)

/-- `SetEcoMode` (`hvac.go`): homeowners only; flips `ecoMode`, and on
enable resets `ecoStats` (saved energy and cycles to zero, activation
time to now).  `lastUpdate` is not touched. -/
def SetEcoMode (s : SysState) (enable : Bool) (u : User) (now : Nat) :
    SysState × Option String :=
  if u.role ≠ "homeowner" then (s, some "only homeowners can change eco mode")
  else
    let s1 := { s with hvac := { s.hvac with ecoMode := enable } }
    if enable then
      ({ s1 with ecoStats := { energySaved := 0, cyclesSaved := 0, activeSince := now } },
       none)
    else (s1, none)

/-- The `kwhPerHour` switch of `estimateEnergyUsage`: fixed per-mode
rates of 2.5 (heat), 3.0 (cool), 0.5 (fan) kWh per hour; the `off`
default leaves the initial 0.0. -/
def ratePerHour (mode : HVACMode) : ℚ :=
  match mode with
  | HVACMode.heat => 5/2
  | HVACMode.cool => 3
  | HVACMode.fan => 1/2
  | HVACMode.off => 0

/-- `estimateEnergyUsage` (identical in both revisions):
`kwhPerHour * (runtimeMinutes / 60.0)`. -/
def estimateEnergyUsage (mode : HVACMode) (runtimeMinutes : Nat) : ℚ :=
  ratePerHour mode * ((runtimeMinutes : ℚ) / 60)

/-- `ReadTemperature` (`sensor.go`): fails when unhealthy; draws
`18.0 + r*10.0`; if that is outside `[-50, 100]` it increments the error
counter and fails; otherwise it records the reading and returns it. -/
def ReadTemperature (sen : SensorState) (r : ℚ) (now : Nat) :
    Except String ℚ × SensorState :=
  if sen.sensorHealth = false then (Except.error "sensor malfunction", sen)
  else
    let temp : ℚ := 18 + r * 10
    if temp < -50 ∨ temp > 100 then
      (Except.error "invalid temperature", { sen with errorCount := sen.errorCount + 1 })
    else
      (Except.ok temp, { sen with lastTemp := temp, lastTimestamp := now })

/-- `logRuntime` (energy-fix revision): if `startTime` is set, compute
`runtime := int(time.Since(startTime).Minutes())` — whole elapsed
minutes, i.e. `(now - startTime) / 60` on second-resolution clocks —
persist an `energy_logs` row only when `runtime > 0`, and in either case
zero both `startTime` and `lastEnergyLog`. -/
def logRuntime (s : SysState) (now : Nat) : SysState :=
  if s.startTime ≠ 0 then
    let runtime := (now - s.startTime) / 60
    let s1 :=
      if runtime > 0 then
        { s with energyLogs := s.energyLogs ++
            [{ hvacMode := s.hvac.mode, runtimeMinutes := runtime,
               estimatedKwh := estimateEnergyUsage s.hvac.mode runtime }] }
      else s
    { s1 with startTime := 0, lastEnergyLog := 0 }
  else s

/-- `logPeriodicRuntime` (energy-fix revision): while a run is open,
fire only when `lastEnergyLog` is zero or at least 2 minutes (120 s)
old; persist a row when the elapsed whole minutes are positive and then
reset both `startTime` and `lastEnergyLog` to `now`. -/
def logPeriodicRuntime (s : SysState) (now : Nat) : SysState :=
  if s.startTime ≠ 0 then
    if s.lastEnergyLog = 0 ∨ 120 ≤ now - s.lastEnergyLog then
      let runtime := (now - s.startTime) / 60
      if runtime > 0 then
        { s with
          energyLogs := s.energyLogs ++
            [{ hvacMode := s.hvac.mode, runtimeMinutes := runtime,
               estimatedKwh := estimateEnergyUsage s.hvac.mode runtime }],
          startTime := now, lastEnergyLog := now }
      else s
    else s
  else s

/-- The row either flush inserts into `energy_logs` for the open
interval `[startTime, now]`. -/
def flushRecord (s : SysState) (now : Nat) : EnergyRecord :=
  { hvacMode := s.hvac.mode, runtimeMinutes := (now - s.startTime) / 60,
    estimatedKwh := estimateEnergyUsage s.hvac.mode ((now - s.startTime) / 60) }

theorem logRuntime_eq (s : SysState) (now : Nat) :
    logRuntime s now =
      if s.startTime ≠ 0 then
        if 0 < (now - s.startTime) / 60 then
          { s with energyLogs := s.energyLogs ++ [flushRecord s now],
                   startTime := 0, lastEnergyLog := 0 }
        else { s with startTime := 0, lastEnergyLog := 0 }
      else s := by
  simp only [logRuntime, flushRecord]
  split_ifs <;> rfl

theorem logPeriodicRuntime_eq (s : SysState) (now : Nat) :
    logPeriodicRuntime s now =
      if s.startTime ≠ 0 ∧ (s.lastEnergyLog = 0 ∨ 120 ≤ now - s.lastEnergyLog) ∧
          0 < (now - s.startTime) / 60 then
        { s with energyLogs := s.energyLogs ++ [flushRecord s now],
                 startTime := now, lastEnergyLog := now }
      else s := by
  simp only [logPeriodicRuntime, flushRecord]
  split_ifs <;> first | rfl | tauto

/-- `UpdateHVACLogic` (energy-fix revision): the loop tick.  A failed
sensor read propagates the error and leaves the controller state
untouched.  Otherwise `currentTemp` is stored and the hysteresis table
is evaluated: off flushes a still-open run and clears `isRunning`
(returning early, without touching `lastUpdate`); heat/cool start at
±1.0 from target, continue with a periodic flush, and stop past ∓0.5,
flushing finally; fan always runs.  Non-off paths stamp `lastUpdate`. -/
def UpdateHVACLogic (s0 : SysState) (sen : SensorState) (r : ℚ) (now : Nat) :
    SysState × SensorState × Option String :=
  match ReadTemperature sen r now with
  | (Except.error e, sen1) => (s0, sen1, some e)
  | (Except.ok currentTemp, sen1) =>
    let s := { s0 with hvac := { s0.hvac with currentTemp := currentTemp } }
    if s.hvac.mode = HVACMode.off then
      if s.hvac.isRunning then
        let s1 := logRuntime s now
        ({ s1 with hvac := { s1.hvac with isRunning := false } }, sen1, none)
      else (s, sen1, none)
    else
      let s2 :=
        if s.hvac.mode = HVACMode.heat then
          if currentTemp < s.hvac.targetTemp - 1 then
            if s.hvac.isRunning = false then
              { s with hvac := { s.hvac with isRunning := true }, startTime := now }
            else logPeriodicRuntime s now
          else if currentTemp > s.hvac.targetTemp + 1/2 then
            if s.hvac.isRunning then
              let s1 := logRuntime s now
              { s1 with hvac := { s1.hvac with isRunning := false } }
            else s
          else s
        else if s.hvac.mode = HVACMode.cool then
          if currentTemp > s.hvac.targetTemp + 1 then
            if s.hvac.isRunning = false then
              { s with hvac := { s.hvac with isRunning := true }, startTime := now }
            else logPeriodicRuntime s now
          else if currentTemp < s.hvac.targetTemp - 1/2 then
            if s.hvac.isRunning then
              let s1 := logRuntime s now
              { s1 with hvac := { s1.hvac with isRunning := false } }
            else s
          else s
        else
          if s.hvac.isRunning = false then
            { s with hvac := { s.hvac with isRunning := true }, startTime := now }
          else logPeriodicRuntime s now
      ({ s2 with hvac := { s2.hvac with lastUpdate := now } }, sen1, none)

/-- `logRuntime` of `hvac.go` (eco revision): unlike the energy-fix
variant it has no positivity guard and does not reset the run-interval
timestamps. -/
def logRuntimeEco (s : SysState) (now : Nat) : SysState :=
  if s.startTime ≠ 0 then
    let runtime := (now - s.startTime) / 60
    { s with energyLogs := s.energyLogs ++
        [{ hvacMode := s.hvac.mode, runtimeMinutes := runtime,
           estimatedKwh := estimateEnergyUsage s.hvac.mode runtime }] }
  else s

/-- `UpdateHVACLogicWithEco` (`hvac.go`): the loop tick of the eco
revision.  A failed sensor read propagates the error and leaves the
controller state untouched.  Otherwise `currentTemp` is stored; off
clears `isRunning` and returns early (no flush, no `lastUpdate`);
heat/cool use start thresholds of 1.0 (2.0 in eco mode) and stop
thresholds of 0.5 (1.0 in eco mode), flushing via the eco-revision
`logRuntime` on stop and crediting fixed eco savings (0.15 kWh heat,
0.18 kWh cool) per avoided cycle; fan sets `isRunning` unconditionally
without recording a start time. -/
def UpdateHVACLogicWithEco (s0 : SysState) (sen : SensorState) (r : ℚ) (now : Nat) :
    SysState × SensorState × Option String :=
  match ReadTemperature sen r now with
  | (Except.error e, sen1) => (s0, sen1, some e)
  | (Except.ok currentTemp, sen1) =>
    let s := { s0 with hvac := { s0.hvac with currentTemp := currentTemp } }
    if s.hvac.mode = HVACMode.off then
      ({ s with hvac := { s.hvac with isRunning := false } }, sen1, none)
    else
      let heatThreshold : ℚ := if s.hvac.ecoMode then 2 else 1
      let coolThreshold : ℚ := if s.hvac.ecoMode then 2 else 1
      let heatStopThreshold : ℚ := if s.hvac.ecoMode then 1 else 1/2
      let coolStopThreshold : ℚ := if s.hvac.ecoMode then 1 else 1/2
      let s2 :=
        if s.hvac.mode = HVACMode.heat then
          if currentTemp < s.hvac.targetTemp - heatThreshold then
            if s.hvac.isRunning = false then
              { s with hvac := { s.hvac with isRunning := true }, startTime := now }
            else s
          else if currentTemp > s.hvac.targetTemp + heatStopThreshold then
            if s.hvac.isRunning then
              let s1 := logRuntimeEco s now
              let s1b := { s1 with hvac := { s1.hvac with isRunning := false } }
              if s1b.hvac.ecoMode then
                { s1b with ecoStats := { s1b.ecoStats with
                    cyclesSaved := s1b.ecoStats.cyclesSaved + 1,
                    energySaved := s1b.ecoStats.energySaved + 15/100 } }
              else s1b
            else s
          else s
        else if s.hvac.mode = HVACMode.cool then
          if currentTemp > s.hvac.targetTemp + coolThreshold then
            if s.hvac.isRunning = false then
              { s with hvac := { s.hvac with isRunning := true }, startTime := now }
            else s
          else if currentTemp < s.hvac.targetTemp - coolStopThreshold then
            if s.hvac.isRunning then
              let s1 := logRuntimeEco s now
              let s1b := { s1 with hvac := { s1.hvac with isRunning := false } }
              if s1b.hvac.ecoMode then
                { s1b with ecoStats := { s1b.ecoStats with
                    cyclesSaved := s1b.ecoStats.cyclesSaved + 1,
                    energySaved := s1b.ecoStats.energySaved + 18/100 } }
              else s1b
            else s
          else s
        else
          { s with hvac := { s.hvac with isRunning := true } }
      ({ s2 with hvac := { s2.hvac with lastUpdate := now } }, sen1, none)

/-- The Go process's zero-valued globals before `InitializeHVAC` runs
(reachability always starts by running `InitializeHVAC`, which
overwrites `hvacState` and `ecoStats`; only the zero run-interval
timestamps and the empty energy log survive from here). -/
def zeroSys : SysState :=
  { hvac := { mode := HVACMode.off, targetTemp := 0, currentTemp := 0,
              isRunning := false, lastUpdate := 0, ecoMode := false },
    startTime := 0, lastEnergyLog := 0,
    ecoStats := { energySaved := 0, cyclesSaved := 0, activeSince := 0 },
    energyLogs := [] }

/-- Reachable controller states of the energy-fix revision:
`InitializeHVAC` over the zero globals, then any interleaving of
re-initialisation, the three mutators, and the loop tick, each invoked
at some clock instant `0 < now` (Go's `time.Now()` is never the zero
time). -/
inductive Reach : SysState → Prop where
  | init (now : Nat) (hnow : 0 < now) : Reach (InitializeHVAC zeroSys now)
  | reinit (s : SysState) (now : Nat) (hs : Reach s) (hnow : 0 < now) :
      Reach (InitializeHVAC s now)
  | setMode (s : SysState) (m : String) (u : User) (now : Nat)
      (hs : Reach s) (hnow : 0 < now) : Reach (SetHVACMode s m u now).1
  | setTarget (s : SysState) (t : ℚ) (u : User) (now : Nat)
      (hs : Reach s) (hnow : 0 < now) : Reach (SetTargetTemperature s t u now).1
  | setEco (s : SysState) (b : Bool) (u : User) (now : Nat)
      (hs : Reach s) (hnow : 0 < now) : Reach (SetEcoMode s b u now).1
  | tick (s : SysState) (sen : SensorState) (r : ℚ) (now : Nat)
      (hs : Reach s) (hnow : 0 < now) : Reach (UpdateHVACLogic s sen r now).1

/-- Total minutes over a list of energy records. -/
def loggedMinutes (l : List EnergyRecord) : Nat :=
  (l.map (fun rec => rec.runtimeMinutes)).sum

/-- Total estimated kWh over a list of energy records. -/
def loggedKwh (l : List EnergyRecord) : ℚ :=
  (l.map (fun rec => rec.estimatedKwh)).sum

/-- Folding the periodic flush over a list of invocation instants: the
accounting trace of a run that keeps running across those ticks. -/
def runPeriodic (s : SysState) (ts : List Nat) : SysState :=
  ts.foldl logPeriodicRuntime s

/-- A homeowner account used to drive the mutators in concrete runs. -/
def traceUser : User :=
  { username := "alice", role := "homeowner" }

/-- A healthy sensor with a clean error counter. -/
def traceSensor : SensorState :=
  { sensorHealth := true, errorCount := 0, lastTemp := 20, lastTimestamp := 0 }

/-- Concrete run: initialise at t=1, switch to heat at t=2, tick at t=10
with sensor draw r=1/10 (reading 19 °C < 21 °C): the heater starts, so
`isRunning` is true and `startTime = 10`. -/
def runState : SysState :=
  (UpdateHVACLogic (SetHVACMode (InitializeHVAC zeroSys 1) "heat" traceUser 2).1
    traceSensor (1/10) 10).1

/-- `SetMode(off)` at t=310, five minutes into the run above. -/
def offState : SysState :=
  (SetHVACMode runState "off" traceUser 310).1

/-- The next loop tick after the off switch, at t=320. -/
def offTickState : SysState :=
  (UpdateHVACLogic offState traceSensor (1/10) 320).1

theorem sanitize_mode_heat : toHVACMode (SanitizeInput "heat") = some HVACMode.heat := by
  decide

theorem sanitize_mode_off : toHVACMode (SanitizeInput "off") = some HVACMode.off := by
  decide

/-- Claim C1 (code bug): with the heater running since t = 10 s
(`runState`), the call `SetMode(off)` at t = 310 s clears `isRunning`
itself, so the off-branch of the next tick — the branch that exists
precisely to flush the final accounting — sees `isRunning = false` and
is skipped.  After the tick at t = 320 s no EnergyRecord at all has been
written for the five-minute run and the stale `startTime` is still 10:
the final interval is silently lost, not flushed exactly once as the
specification requires. -/
theorem offSwitch_final_flush_lost :
    runState.hvac.isRunning = true ∧ runState.startTime = 10 ∧
    offState.hvac.isRunning = false ∧ offState.startTime = 10 ∧
    offTickState.hvac.isRunning = false ∧ offTickState.energyLogs = [] ∧
    offTickState.startTime = 10 := by
  norm_num [offTickState, offState, runState, UpdateHVACLogic, SetHVACMode,
    InitializeHVAC, sanitize_mode_heat, sanitize_mode_off, ReadTemperature,
    traceSensor, traceUser, zeroSys, logPeriodicRuntime, logRuntime] <;> simp

/-- Claim C9: whenever the sensor read fails — the health flag is false,
or the drawn value `18 + 10r` lies outside the physical bounds
`[-50, 100]` — both revisions of the tick return that error and leave
the entire controller state (all climate fields, both run-interval
timestamps, and the energy log) exactly as it was. -/
theorem tick_sensor_failure_frame (s : SysState) (sen : SensorState) (r : ℚ) (now : Nat)
    (hfail : sen.sensorHealth = false ∨ 18 + r * 10 < -50 ∨ 18 + r * 10 > 100) :
    (UpdateHVACLogicWithEco s sen r now).1 = s ∧
    (UpdateHVACLogicWithEco s sen r now).2.2.isSome = true ∧
    (UpdateHVACLogic s sen r now).1 = s ∧
    (UpdateHVACLogic s sen r now).2.2.isSome = true := by
  obtain ⟨e, sen1, hRT⟩ : ∃ e sen1, ReadTemperature sen r now = (Except.error e, sen1) := by
    by_cases hh : sen.sensorHealth = false
    · exact ⟨"sensor malfunction", sen, by simp [ReadTemperature, hh]⟩
    · rcases hfail with h | h
      · exact absurd h hh
      · refine ⟨"invalid temperature", { sen with errorCount := sen.errorCount + 1 }, ?_⟩
        simp only [ReadTemperature, if_neg hh]
        rw [if_pos h]
  simp [UpdateHVACLogic, UpdateHVACLogicWithEco, hRT]

/-- Witness for C9: a tick against an unhealthy sensor leaves the
freshly initialised state untouched and reports the failure. -/
theorem tick_sensor_failure_frame_witness :
    (UpdateHVACLogicWithEco (InitializeHVAC zeroSys 1)
        { traceSensor with sensorHealth := false } (1/2) 9).1 = InitializeHVAC zeroSys 1 ∧
    (UpdateHVACLogic (InitializeHVAC zeroSys 1)
        { traceSensor with sensorHealth := false } (1/2) 9).2.2.isSome = true := by
  have h := tick_sensor_failure_frame (InitializeHVAC zeroSys 1)
    { traceSensor with sensorHealth := false } (1/2) 9 (Or.inl rfl)
  exact ⟨h.1, h.2.2.2⟩

/-- Claim C8 (amended): `SetTargetTemperature` never changes
`isRunning` or either run-interval timestamp, for any argument;
`SetHVACMode` never changes the run-interval timestamps and leaves
`isRunning` unchanged for every argument except a (sanitized) `off`,
which forces `isRunning := false` in the call itself. -/
theorem mutators_run_frame (s : SysState) (m : String) (temp : ℚ) (u : User) (now : Nat) :
    (SetTargetTemperature s temp u now).1.hvac.isRunning = s.hvac.isRunning ∧
    (SetTargetTemperature s temp u now).1.startTime = s.startTime ∧
    (SetTargetTemperature s temp u now).1.lastEnergyLog = s.lastEnergyLog ∧
    (SetHVACMode s m u now).1.startTime = s.startTime ∧
    (SetHVACMode s m u now).1.lastEnergyLog = s.lastEnergyLog ∧
    (SetHVACMode s m u now).1.hvac.isRunning =
      (if toHVACMode (SanitizeInput m) = some HVACMode.off then false
       else s.hvac.isRunning) := by
  refine ⟨?_, ?_, ?_, ?_, ?_, ?_⟩ <;>
  · rcases hv : ValidateTemperatureInput temp with _ | e <;>
      rcases hm : toHVACMode (SanitizeInput m) with _ | mm <;>
        rcases mm' : s.hvac.isRunning <;>
          first
          | (simp [SetTargetTemperature, SetHVACMode, hv, hm, mm']
             rcases mm <;> simp)
          | simp [SetTargetTemperature, SetHVACMode, hv, hm, mm']

/-- Claim C8 counterexample: with the heater mid-run (`runState`,
where `isRunning = true`), the call `SetMode("off")` itself flips
`isRunning` to false — the mutator does stop the run before any tick. -/
theorem setMode_off_stops_run_counterexample :
    runState.hvac.isRunning = true ∧
    (SetHVACMode runState "off" traceUser 310).1.hvac.isRunning = false := by
  norm_num [offState, runState, UpdateHVACLogic, SetHVACMode, InitializeHVAC,
    sanitize_mode_heat, sanitize_mode_off, ReadTemperature, traceSensor, traceUser,
    zeroSys, logPeriodicRuntime, logRuntime] <;> simp

/-- Claim C5: for every temperature outside [10,35] and every user,
`SetTargetTemperature` returns the out-of-range error and leaves the
whole state (hence every climate field) unchanged; for every value
inside [10,35] it succeeds and stores exactly that value as the target. -/
theorem setTargetTemperature_validation (s : SysState) (temp : ℚ) (u : User) (now : Nat) :
    ((temp < 10 ∨ temp > 35) →
      SetTargetTemperature s temp u now =
        (s, some "temperature out of safe range (10-35°C)")) ∧
    (10 ≤ temp → temp ≤ 35 →
      (SetTargetTemperature s temp u now).2 = none ∧
      (SetTargetTemperature s temp u now).1.hvac.targetTemp = temp) := by
  constructor
  · intro h
    simp [SetTargetTemperature, ValidateTemperatureInput, h]
  · intro h1 h2
    have hno : ¬(temp < 10 ∨ temp > 35) := by
      push_neg
      exact ⟨h1, h2⟩
    simp [SetTargetTemperature, ValidateTemperatureInput, hno]

/-- Witness for C5 at the rejected input 50 °C and the accepted input
20 °C. -/
theorem setTargetTemperature_validation_witness :
    SetTargetTemperature zeroSys 50 traceUser 5 =
      (zeroSys, some "temperature out of safe range (10-35°C)") ∧
    (SetTargetTemperature zeroSys 20 traceUser 5).2 = none ∧
    (SetTargetTemperature zeroSys 20 traceUser 5).1.hvac.targetTemp = 20 :=
  ⟨(setTargetTemperature_validation zeroSys 50 traceUser 5).1 (by norm_num),
   (setTargetTemperature_validation zeroSys 20 traceUser 5).2 (by norm_num) (by norm_num)⟩

/-- Claim C7: the final flush computes the floored whole minutes since
`startTime`, persists a record with `kwh = ratePerHour(mode) *
runtimeMinutes/60` only when the minutes are positive (a sub-minute run
records nothing), then zeroes both run-interval timestamps; the rates
are 2.5 (heat), 3.0 (cool) and 0.5 (fan) kWh per hour. -/
theorem logRuntime_final_flush (s : SysState) (now : Nat) (h0 : s.startTime ≠ 0) :
    (logRuntime s now).startTime = 0 ∧
    (logRuntime s now).lastEnergyLog = 0 ∧
    (0 < (now - s.startTime) / 60 →
      (logRuntime s now).energyLogs = s.energyLogs ++
        [{ hvacMode := s.hvac.mode,
           runtimeMinutes := (now - s.startTime) / 60,
           estimatedKwh := ratePerHour s.hvac.mode * (((now - s.startTime) / 60 : Nat) / 60 : ℚ) }]) ∧
    ((now - s.startTime) / 60 = 0 → (logRuntime s now).energyLogs = s.energyLogs) ∧
    ratePerHour HVACMode.heat = 5/2 ∧
    ratePerHour HVACMode.cool = 3 ∧
    ratePerHour HVACMode.fan = 1/2 := by
  rw [logRuntime_eq, if_pos h0]
  by_cases hrt : 0 < (now - s.startTime) / 60
  · rw [if_pos hrt]
    refine ⟨rfl, rfl, fun _ => ?_, fun h => absurd h (by omega), rfl, rfl, rfl⟩
    simp [flushRecord, estimateEnergyUsage]
  · rw [if_neg hrt]
    exact ⟨rfl, rfl, fun h => absurd h hrt, fun _ => rfl, rfl, rfl, rfl⟩

/-- Witness for C7: a run opened at t = 10 s and finally flushed at
t = 200 s logs 3 whole minutes. -/
theorem logRuntime_final_flush_witness :
    (logRuntime { zeroSys with startTime := 10 } 200).startTime = 0 ∧
    (logRuntime { zeroSys with startTime := 10 } 200).lastEnergyLog = 0 ∧
    (logRuntime { zeroSys with startTime := 10 } 200).energyLogs = zeroSys.energyLogs ++
      [{ hvacMode := zeroSys.hvac.mode, runtimeMinutes := 3,
         estimatedKwh := ratePerHour zeroSys.hvac.mode * ((3 : Nat) / 60 : ℚ) }] := by
  have h := logRuntime_final_flush { zeroSys with startTime := 10 } 200 (by norm_num)
  exact ⟨h.1, h.2.1, h.2.2.1 (by norm_num)⟩

/-- Claim C6: the periodic flush appends a record only when
`lastEnergyLog` is unset or at least 2 minutes (120 s) old, and whenever
it records it resets both `startTime` and `lastEnergyLog` to the current
instant in the same step (so successive periodic records of one
continuous run cover non-overlapping intervals); inside the 2-minute
window it leaves the state completely unchanged. -/
theorem logPeriodicRuntime_gate_and_reset (s : SysState) (now : Nat) :
    ((logPeriodicRuntime s now).energyLogs ≠ s.energyLogs →
      (s.lastEnergyLog = 0 ∨ 120 ≤ now - s.lastEnergyLog) ∧
      (logPeriodicRuntime s now).startTime = now ∧
      (logPeriodicRuntime s now).lastEnergyLog = now ∧
      (logPeriodicRuntime s now).energyLogs = s.energyLogs ++
        [{ hvacMode := s.hvac.mode,
           runtimeMinutes := (now - s.startTime) / 60,
           estimatedKwh := estimateEnergyUsage s.hvac.mode ((now - s.startTime) / 60) }]) ∧
    (s.lastEnergyLog ≠ 0 → now - s.lastEnergyLog < 120 →
      logPeriodicRuntime s now = s) := by
  rw [logPeriodicRuntime_eq]
  by_cases H : s.startTime ≠ 0 ∧ (s.lastEnergyLog = 0 ∨ 120 ≤ now - s.lastEnergyLog) ∧
      0 < (now - s.startTime) / 60
  · rw [if_pos H]
    refine ⟨fun _ => ⟨H.2.1, rfl, rfl, by simp [flushRecord]⟩, fun h1 h2 => ?_⟩
    rcases H.2.1 with h | h
    · exact absurd h h1
    · omega
  · rw [if_neg H]
    exact ⟨fun hne => absurd rfl hne, fun _ _ => rfl⟩

/-- Witness for C6: with `lastEnergyLog` unset the flush at t = 200 s of
a run opened at t = 10 s records and resets both timestamps to 200;
with `lastEnergyLog = 100` a flush at t = 150 s is a no-op. -/
theorem logPeriodicRuntime_gate_and_reset_witness :
    ((({ zeroSys with startTime := 10 } : SysState).lastEnergyLog = 0 ∨
        120 ≤ 200 - ({ zeroSys with startTime := 10 } : SysState).lastEnergyLog) ∧
      (logPeriodicRuntime { zeroSys with startTime := 10 } 200).startTime = 200 ∧
      (logPeriodicRuntime { zeroSys with startTime := 10 } 200).lastEnergyLog = 200 ∧
      (logPeriodicRuntime { zeroSys with startTime := 10 } 200).energyLogs =
        ({ zeroSys with startTime := 10 } : SysState).energyLogs ++
          [{ hvacMode := ({ zeroSys with startTime := 10 } : SysState).hvac.mode,
             runtimeMinutes := (200 - ({ zeroSys with startTime := 10 } : SysState).startTime) / 60,
             estimatedKwh := estimateEnergyUsage ({ zeroSys with startTime := 10 } : SysState).hvac.mode
               ((200 - ({ zeroSys with startTime := 10 } : SysState).startTime) / 60) }]) ∧
    logPeriodicRuntime { zeroSys with startTime := 10, lastEnergyLog := 100 } 150 =
      { zeroSys with startTime := 10, lastEnergyLog := 100 } :=
  ⟨(logPeriodicRuntime_gate_and_reset { zeroSys with startTime := 10 } 200).1
     (by norm_num [logPeriodicRuntime, zeroSys]),
   (logPeriodicRuntime_gate_and_reset { zeroSys with startTime := 10, lastEnergyLog := 100 } 150).2
     (by norm_num) (by norm_num)⟩

/-- Claim C10: a healthy sensor never fails: for every draw
`r ∈ [0,1)` of `rand.Float64()`, the simulated value `18 + 10r` lies in
`[18, 28)`, inside the hard physical bounds `[-50, 100]`, so
`ReadTemperature` returns it successfully and the fault branch (error
return plus error-counter increment) is not taken. -/
theorem readTemperature_healthy_total (sen : SensorState) (r : ℚ) (now : Nat)
    (hh : sen.sensorHealth = true) (hr0 : 0 ≤ r) (hr1 : r < 1) :
    (ReadTemperature sen r now).1 = Except.ok (18 + r * 10) ∧
    (ReadTemperature sen r now).2.errorCount = sen.errorCount ∧
    18 ≤ 18 + r * 10 ∧ 18 + r * 10 < 28 ∧
    ¬(18 + r * 10 < -50 ∨ 18 + r * 10 > 100) := by
  have hlo : (18 : ℚ) ≤ 18 + r * 10 := by linarith
  have hhi : 18 + r * 10 < 28 := by linarith
  have hbound : ¬(18 + r * 10 < -50 ∨ 18 + r * 10 > 100) := by
    push_neg
    constructor <;> linarith
  refine ⟨?_, ?_, hlo, hhi, hbound⟩ <;> simp [ReadTemperature, hh, hbound]

/-- Witness for C10 at the draw r = 1/2: the healthy sensor returns
23 °C. -/
theorem readTemperature_healthy_total_witness :
    (ReadTemperature traceSensor (1/2) 7).1 = Except.ok (18 + (1/2 : ℚ) * 10) ∧
    (ReadTemperature traceSensor (1/2) 7).2.errorCount = traceSensor.errorCount :=
  ⟨(readTemperature_healthy_total traceSensor (1/2) 7 rfl (by norm_num) (by norm_num)).1,
   (readTemperature_healthy_total traceSensor (1/2) 7 rfl (by norm_num) (by norm_num)).2.1⟩

theorem logPeriodicRuntime_hvac (s : SysState) (now : Nat) :
    (logPeriodicRuntime s now).hvac = s.hvac := by
  rw [logPeriodicRuntime_eq]
  split_ifs <;> rfl

theorem logPeriodicRuntime_startTime_cases (s : SysState) (now : Nat) :
    (logPeriodicRuntime s now).startTime = s.startTime ∨
    (logPeriodicRuntime s now).startTime = now := by
  rw [logPeriodicRuntime_eq]
  split_ifs <;> simp

/-- One tick of the energy-fix loop preserves the running half of the
run-interval invariant: if it leaves `isRunning` true, `startTime` is a
genuine (non-zero) instant. -/
theorem tick_preserves_run_startTime (s : SysState) (sen : SensorState) (r : ℚ) (now : Nat)
    (hnow : 0 < now) (ih : s.hvac.isRunning = true → s.startTime ≠ 0) :
    (UpdateHVACLogic s sen r now).1.hvac.isRunning = true →
    (UpdateHVACLogic s sen r now).1.startTime ≠ 0 := by
  rcases hRT : ReadTemperature sen r now with ⟨res, sen1⟩
  rcases res with e | c
  · simpa [UpdateHVACLogic, hRT] using ih
  · have hper : ∀ t : SysState, (t.hvac.isRunning = true → t.startTime ≠ 0) →
        t.hvac.isRunning = true → (logPeriodicRuntime t now).startTime ≠ 0 := by
      intro t h1 h2
      rcases logPeriodicRuntime_startTime_cases t now with h | h <;> rw [h]
      · exact h1 h2
      · omega
    simp only [UpdateHVACLogic, hRT]
    rcases hm : s.hvac.mode
    case off =>
      rcases hrun : s.hvac.isRunning <;> simp [hm, hrun]
    case heat =>
      rcases hrun : s.hvac.isRunning <;>
        simp only [hm, hrun] <;> split_ifs <;>
          simp_all [logPeriodicRuntime_hvac] <;>
            first
            | omega
            | (apply hper _ _ rfl
               simpa using ih)
    case cool =>
      rcases hrun : s.hvac.isRunning <;>
        simp only [hm, hrun] <;> split_ifs <;>
          simp_all [logPeriodicRuntime_hvac] <;>
            first
            | omega
            | (apply hper _ _ rfl
               simpa using ih)
    case fan =>
      rcases hrun : s.hvac.isRunning <;>
        simp only [hm, hrun] <;> split_ifs <;>
          simp_all [logPeriodicRuntime_hvac] <;>
            first
            | omega
            | (apply hper _ _ rfl
               simpa using ih)

/-- Claim C2 (amended): in every reachable state of the energy-fix
controller, whenever `isRunning` is true, `startTime` is non-zero.  The
converse half of the claimed invariant — `isRunning` false forcing both
timestamps to zero — does not hold on the code, see the counterexample. -/
theorem reach_running_startTime_nonzero (s : SysState) (hs : Reach s) :
    s.hvac.isRunning = true → s.startTime ≠ 0 := by
  induction hs with
  | init now hnow => simp [InitializeHVAC, zeroSys]
  | reinit s now hs hnow ih => simp [InitializeHVAC]
  | setMode s m u now hs hnow ih =>
      rcases hm : toHVACMode (SanitizeInput m) with _ | mm
      · simpa [SetHVACMode, hm] using ih
      · rcases mm <;> simp [SetHVACMode, hm] <;> exact ih
  | setTarget s t u now hs hnow ih =>
      rcases hv : ValidateTemperatureInput t with _ | e <;>
        simpa [SetTargetTemperature, hv] using ih
  | setEco s b u now hs hnow ih =>
      by_cases hrole : u.role ≠ "homeowner" <;> rcases b' : b <;>
        simp [SetEcoMode, hrole, b'] <;> exact ih
  | tick s sen r now hs hnow ih => exact tick_preserves_run_startTime s sen r now hnow ih

/-- Witness for C2 (amended) at the reachable running state `runState`:
its `startTime` is indeed non-zero. -/
theorem reach_running_startTime_nonzero_witness : runState.startTime ≠ 0 := by
  have hr : Reach runState :=
    Reach.tick _ traceSensor (1/10) 10
      (Reach.setMode _ "heat" traceUser 2 (Reach.init 1 (by norm_num)) (by norm_num))
      (by norm_num)
  exact reach_running_startTime_nonzero runState hr (by
    norm_num [runState, UpdateHVACLogic, SetHVACMode, InitializeHVAC, sanitize_mode_heat,
      ReadTemperature, traceSensor, traceUser, zeroSys] <;> simp)

/-- Claim C2 counterexample: `offState` is reachable (initialise, switch
to heat, tick that starts the run, switch to off) yet has `isRunning =
false` while `startTime = 10 ≠ 0`: the half of the claimed invariant
that forces both timestamps to zero once `isRunning` is false fails,
because `SetHVACMode(off)` clears the flag without clearing the
interval timestamps. -/
theorem run_interval_invariant_counterexample :
    Reach offState ∧ offState.hvac.isRunning = false ∧ offState.startTime ≠ 0 := by
  refine ⟨?_, ?_, ?_⟩
  · exact Reach.setMode _ "off" traceUser 310
      (Reach.tick _ traceSensor (1/10) 10
        (Reach.setMode _ "heat" traceUser 2 (Reach.init 1 (by norm_num)) (by norm_num))
        (by norm_num))
      (by norm_num)
  · norm_num [offState, runState, UpdateHVACLogic, SetHVACMode, InitializeHVAC,
      sanitize_mode_heat, sanitize_mode_off, ReadTemperature, traceSensor, traceUser,
      zeroSys] <;> simp
  · norm_num [offState, runState, UpdateHVACLogic, SetHVACMode, InitializeHVAC,
      sanitize_mode_heat, sanitize_mode_off, ReadTemperature, traceSensor, traceUser,
      zeroSys] <;> simp

theorem logRuntimeEco_hvac (s : SysState) (now : Nat) :
    (logRuntimeEco s now).hvac = s.hvac := by
  unfold logRuntimeEco
  split_ifs <;> rfl

/-- Claim C4: on every tick whose sensor read succeeds (healthy sensor,
draw `r ∈ [0,1)`, reading `c = 18 + 10r`), the eco-revision tick follows
the hysteresis table: heat starts when `c < target − 1` (eco: `− 2`) and
stops when `c > target + 0.5` (eco: `+ 1`); cool starts when
`c > target + 1` (eco: `+ 2`) and stops when `c < target − 0.5` (eco:
`− 1`); anywhere between the two thresholds `isRunning` is unchanged. -/
theorem tick_hysteresis_table (s : SysState) (sen : SensorState) (r : ℚ) (now : Nat)
    (hh : sen.sensorHealth = true) (hr0 : 0 ≤ r) (hr1 : r < 1) :
    (s.hvac.mode = HVACMode.heat →
      (18 + r * 10 < s.hvac.targetTemp - (if s.hvac.ecoMode then 2 else 1) →
        (UpdateHVACLogicWithEco s sen r now).1.hvac.isRunning = true) ∧
      (18 + r * 10 > s.hvac.targetTemp + (if s.hvac.ecoMode then 1 else 1/2) →
        (UpdateHVACLogicWithEco s sen r now).1.hvac.isRunning = false) ∧
      (s.hvac.targetTemp - (if s.hvac.ecoMode then 2 else 1) ≤ 18 + r * 10 →
        18 + r * 10 ≤ s.hvac.targetTemp + (if s.hvac.ecoMode then 1 else 1/2) →
        (UpdateHVACLogicWithEco s sen r now).1.hvac.isRunning = s.hvac.isRunning)) ∧
    (s.hvac.mode = HVACMode.cool →
      (18 + r * 10 > s.hvac.targetTemp + (if s.hvac.ecoMode then 2 else 1) →
        (UpdateHVACLogicWithEco s sen r now).1.hvac.isRunning = true) ∧
      (18 + r * 10 < s.hvac.targetTemp - (if s.hvac.ecoMode then 1 else 1/2) →
        (UpdateHVACLogicWithEco s sen r now).1.hvac.isRunning = false) ∧
      (s.hvac.targetTemp - (if s.hvac.ecoMode then 1 else 1/2) ≤ 18 + r * 10 →
        18 + r * 10 ≤ s.hvac.targetTemp + (if s.hvac.ecoMode then 2 else 1) →
        (UpdateHVACLogicWithEco s sen r now).1.hvac.isRunning = s.hvac.isRunning)) := by
  have hbound : ¬(18 + r * 10 < -50 ∨ 18 + r * 10 > 100) := by
    push_neg
    constructor <;> linarith
  have hok : ReadTemperature sen r now =
      (Except.ok (18 + r * 10),
       { sen with lastTemp := 18 + r * 10, lastTimestamp := now }) := by
    simp [ReadTemperature, hh, hbound]
  simp only [UpdateHVACLogicWithEco, hok]
  cases he : s.hvac.ecoMode <;>
    refine ⟨fun hm => ⟨fun h1 => ?_, fun h2 => ?_, fun h3 h4 => ?_⟩,
            fun hm => ⟨fun h1 => ?_, fun h2 => ?_, fun h3 h4 => ?_⟩⟩ <;>
      rcases hrun : s.hvac.isRunning <;>
        (try simp_all [logRuntimeEco_hvac]) <;>
          (try split_ifs) <;>
            (first
              | rfl
              | linarith
              | simp_all [logRuntimeEco_hvac]
              | (simp_all [logRuntimeEco_hvac]
                 linarith))

/-- Witness for C4: heat mode at target 22 °C, standard bands, reading
19 °C (draw r = 1/10) is below 21 °C, so the tick starts the heater. -/
theorem tick_hysteresis_table_witness :
    (UpdateHVACLogicWithEco (SetHVACMode (InitializeHVAC zeroSys 1) "heat" traceUser 2).1
        traceSensor (1/10) 10).1.hvac.isRunning = true := by
  have hmode : ((SetHVACMode (InitializeHVAC zeroSys 1) "heat" traceUser 2).1).hvac.mode =
      HVACMode.heat := by
    norm_num [SetHVACMode, InitializeHVAC, sanitize_mode_heat, zeroSys]
  refine ((tick_hysteresis_table _ traceSensor (1/10) 10 rfl (by norm_num)
    (by norm_num)).1 hmode).1 ?_
  norm_num [SetHVACMode, InitializeHVAC, sanitize_mode_heat, zeroSys]

theorem loggedMinutes_nil : loggedMinutes [] = 0 := rfl

theorem loggedKwh_nil : loggedKwh [] = 0 := rfl

theorem loggedMinutes_append (l1 l2 : List EnergyRecord) :
    loggedMinutes (l1 ++ l2) = loggedMinutes l1 + loggedMinutes l2 := by
  simp [loggedMinutes]

theorem loggedKwh_append (l1 l2 : List EnergyRecord) :
    loggedKwh (l1 ++ l2) = loggedKwh l1 + loggedKwh l2 := by
  simp [loggedKwh]

theorem loggedMinutes_cons (a : EnergyRecord) (l : List EnergyRecord) :
    loggedMinutes (a :: l) = a.runtimeMinutes + loggedMinutes l := by
  simp [loggedMinutes]

theorem loggedKwh_cons (a : EnergyRecord) (l : List EnergyRecord) :
    loggedKwh (a :: l) = a.estimatedKwh + loggedKwh l := by
  simp [loggedKwh]

theorem loggedKwh_of_uniform (m : HVACMode) (l : List EnergyRecord)
    (h : ∀ a ∈ l, a.estimatedKwh = ratePerHour m * (a.runtimeMinutes : ℚ) / 60) :
    loggedKwh l = ratePerHour m * (loggedMinutes l : ℚ) / 60 := by
  induction l with
  | nil => simp [loggedKwh, loggedMinutes]
  | cons a l ih =>
      rw [loggedKwh_cons, loggedMinutes_cons, h a (by simp),
        ih (fun b hb => h b (by simp [hb]))]
      push_cast
      ring

theorem chain_le_head_weaken {a b : Nat} {l : List Nat} (hab : a ≤ b)
    (h : List.Chain (· ≤ ·) b l) : List.Chain (· ≤ ·) a l := by
  cases l with
  | nil => exact List.Chain.nil
  | cons c l2 =>
      rcases List.chain_cons.mp h with ⟨hbc, hc⟩
      exact List.chain_cons.mpr ⟨le_trans hab hbc, hc⟩

/-- Invariant of the periodic-flush fold: the climate record is
untouched, the open interval start only moves forward onto flush
instants, every appended record carries the run's mode with
`kwh = rate * minutes / 60`, and the seconds absorbed into records plus
the seconds still open bracket the elapsed time, losing strictly less
than one minute per appended record. -/
theorem runPeriodic_spec (ts : List Nat) : ∀ (s : SysState) (tf : Nat),
    s.startTime ≠ 0 →
    List.Chain (· ≤ ·) s.startTime (ts ++ [tf]) →
    (runPeriodic s ts).hvac = s.hvac ∧
    (runPeriodic s ts).startTime ≠ 0 ∧
    (runPeriodic s ts).startTime ≤ tf ∧
    s.startTime ≤ (runPeriodic s ts).startTime ∧
    ∃ new : List EnergyRecord,
      (runPeriodic s ts).energyLogs = s.energyLogs ++ new ∧
      (∀ a ∈ new, a.hvacMode = s.hvac.mode ∧
        a.estimatedKwh = ratePerHour s.hvac.mode * (a.runtimeMinutes : ℚ) / 60) ∧
      s.startTime + 60 * loggedMinutes new ≤ (runPeriodic s ts).startTime ∧
      (runPeriodic s ts).startTime ≤ s.startTime + 60 * loggedMinutes new + 60 * new.length := by
  induction ts with
  | nil =>
      intro s tf h0 hc
      have hstf : s.startTime ≤ tf := (List.chain_cons.mp hc).1
      have hr : runPeriodic s [] = s := rfl
      rw [hr]
      exact ⟨rfl, h0, hstf, le_refl _,
        ⟨[], by simp, by simp, by simp [loggedMinutes_nil], by simp [loggedMinutes_nil]⟩⟩
  | cons t ts ih =>
      intro s tf h0 hc
      rcases List.chain_cons.mp hc with ⟨hst, hc2⟩
      have hfold : runPeriodic s (t :: ts) = runPeriodic (logPeriodicRuntime s t) ts := by
        simp [runPeriodic]
      by_cases hC : s.startTime ≠ 0 ∧ (s.lastEnergyLog = 0 ∨ 120 ≤ t - s.lastEnergyLog) ∧
          0 < (t - s.startTime) / 60
      · -- the flush at t records and resets the interval to t
        have ht0 : t ≠ 0 := by omega
        have hrt1 : 0 < (t - s.startTime) / 60 := hC.2.2
        have hdiv1 : 60 * ((t - s.startTime) / 60) ≤ t - s.startTime := by omega
        have hdiv2 : t - s.startTime < 60 * ((t - s.startTime) / 60) + 60 := by omega
        have hs1 : logPeriodicRuntime s t =
            { s with energyLogs := s.energyLogs ++ [flushRecord s t],
                     startTime := t, lastEnergyLog := t } := by
          rw [logPeriodicRuntime_eq, if_pos hC]
        rw [hfold, hs1]
        generalize hgen : ({ s with energyLogs := s.energyLogs ++ [flushRecord s t], startTime := t, lastEnergyLog := t } : SysState) = s1
        have h1hvac : s1.hvac = s.hvac := by rw [← hgen]
        have h1st : s1.startTime = t := by rw [← hgen]
        have h1logs : s1.energyLogs = s.energyLogs ++ [flushRecord s t] := by rw [← hgen]
        obtain ⟨ghvac, gst0, gstf, gstle, new1, glogs, guni, glo, ghi⟩ :=
          ih s1 tf (by rw [h1st]; exact ht0) (by rw [h1st]; exact hc2)
        have hfr : (flushRecord s t).runtimeMinutes = (t - s.startTime) / 60 := rfl
        rw [h1st] at gstle glo ghi
        refine ⟨by rw [ghvac, h1hvac], gst0, gstf, by omega, ?_⟩
        refine ⟨flushRecord s t :: new1, ?_, ?_, ?_, ?_⟩
        · rw [glogs, h1logs]
          simp
        · intro a ha
          rcases List.mem_cons.mp ha with h | h
          · subst h
            exact ⟨rfl, by simp [flushRecord, estimateEnergyUsage, mul_div_assoc]⟩
          · have hone := guni a h
            rw [h1hvac] at hone
            exact hone
        · rw [loggedMinutes_cons, hfr]
          omega
        · rw [loggedMinutes_cons, List.length_cons, hfr]
          omega
      · -- the flush at t is a no-op
        have hs1 : logPeriodicRuntime s t = s := by
          rw [logPeriodicRuntime_eq, if_neg hC]
        rw [hfold, hs1]
        exact ih s tf h0 (chain_le_head_weaken hst hc2)

/-- Claim C3 (amended): over any continuous run in one fixed mode —
`startTime` open, clean log, periodic flushes invoked at monotone
instants, final flush at the end — every record's kWh is the fixed rate
times its logged minutes, and the cumulative logged kWh undershoots the
exact `rate * totalRunMinutes / 60` by at most `(n + 1)` minutes' worth
of energy, where `n` is the number of records written: each flush that
closes an interval can truncate up to one whole minute, so the bound
grows with the number of flushes instead of the single minute the
original claim allows. -/
theorem energy_run_bound (s : SysState) (ts : List Nat) (tf : Nat)
    (h0 : s.startTime ≠ 0) (hlogs : s.energyLogs = [])
    (hmono : List.Chain (· ≤ ·) s.startTime (ts ++ [tf])) :
    loggedKwh (logRuntime (runPeriodic s ts) tf).energyLogs =
      ratePerHour s.hvac.mode *
        ((loggedMinutes (logRuntime (runPeriodic s ts) tf).energyLogs : ℚ)) / 60 ∧
    60 * loggedMinutes (logRuntime (runPeriodic s ts) tf).energyLogs ≤ tf - s.startTime ∧
    tf - s.startTime ≤
      60 * loggedMinutes (logRuntime (runPeriodic s ts) tf).energyLogs +
        60 * ((logRuntime (runPeriodic s ts) tf).energyLogs.length + 1) ∧
    0 ≤ ratePerHour s.hvac.mode * (((tf - s.startTime : Nat) : ℚ) / 60) / 60 -
        loggedKwh (logRuntime (runPeriodic s ts) tf).energyLogs ∧
    ratePerHour s.hvac.mode * (((tf - s.startTime : Nat) : ℚ) / 60) / 60 -
        loggedKwh (logRuntime (runPeriodic s ts) tf).energyLogs ≤
      (((logRuntime (runPeriodic s ts) tf).energyLogs.length : ℚ) + 1) *
        (ratePerHour s.hvac.mode / 60) := by
  obtain ⟨phvac, pst0, pstf, pstle, new, plogs, puni, plo, phi⟩ :=
    runPeriodic_spec ts s tf h0 hmono
  rw [hlogs] at plogs
  rw [List.nil_append] at plogs
  rw [logRuntime_eq, if_pos pst0]
  have hdiv1 : 60 * ((tf - (runPeriodic s ts).startTime) / 60) ≤
      tf - (runPeriodic s ts).startTime := by omega
  have hdiv2 : tf - (runPeriodic s ts).startTime <
      60 * ((tf - (runPeriodic s ts).startTime) / 60) + 60 := by omega
  by_cases hrt : 0 < (tf - (runPeriodic s ts).startTime) / 60
  · rw [if_pos hrt]
    have e1 : ({ runPeriodic s ts with
        energyLogs := (runPeriodic s ts).energyLogs ++ [flushRecord (runPeriodic s ts) tf],
        startTime := 0, lastEnergyLog := 0 } : SysState).energyLogs =
        new ++ [flushRecord (runPeriodic s ts) tf] := by
      rw [← plogs]
    rw [e1]
    have hm1 : loggedMinutes (new ++ [flushRecord (runPeriodic s ts) tf]) =
        loggedMinutes new + (tf - (runPeriodic s ts).startTime) / 60 := by
      rw [loggedMinutes_append]
      simp [loggedMinutes, flushRecord]
    have hl1 : (new ++ [flushRecord (runPeriodic s ts) tf]).length = new.length + 1 := by
      simp
    have hu : ∀ a ∈ new ++ [flushRecord (runPeriodic s ts) tf],
        a.estimatedKwh = ratePerHour s.hvac.mode * (a.runtimeMinutes : ℚ) / 60 := by
      intro a ha
      rcases List.mem_append.mp ha with h | h
      · exact (puni a h).2
      · have ha2 : a = flushRecord (runPeriodic s ts) tf := by simpa using h
        subst ha2
        simp [flushRecord, estimateEnergyUsage, phvac, mul_div_assoc]
    have hkwh := loggedKwh_of_uniform s.hvac.mode _ hu
    have N1 : 60 * loggedMinutes (new ++ [flushRecord (runPeriodic s ts) tf]) ≤
        tf - s.startTime := by
      rw [hm1]
      omega
    have N2 : tf - s.startTime ≤
        60 * loggedMinutes (new ++ [flushRecord (runPeriodic s ts) tf]) +
          60 * ((new ++ [flushRecord (runPeriodic s ts) tf]).length + 1) := by
      rw [hm1, hl1]
      omega
    have hq1 : (60 : ℚ) * (loggedMinutes (new ++ [flushRecord (runPeriodic s ts) tf]) : ℚ) ≤
        ((tf - s.startTime : Nat) : ℚ) := by
      exact_mod_cast N1
    have hq2 : ((tf - s.startTime : Nat) : ℚ) ≤
        60 * (loggedMinutes (new ++ [flushRecord (runPeriodic s ts) tf]) : ℚ) +
          60 * (((new ++ [flushRecord (runPeriodic s ts) tf]).length : ℚ) + 1) := by
      exact_mod_cast N2
    refine ⟨hkwh, N1, N2, ?_, ?_⟩ <;>
      rw [hkwh] <;>
        rcases hmode : s.hvac.mode <;>
          simp only [hmode, ratePerHour] at * <;> linarith
  · rw [if_neg hrt]
    have e2 : ({ runPeriodic s ts with startTime := 0, lastEnergyLog := 0 } : SysState).energyLogs =
        new := by
      rw [← plogs]
    rw [e2]
    have hkwh := loggedKwh_of_uniform s.hvac.mode new (fun a h => (puni a h).2)
    have N1 : 60 * loggedMinutes new ≤ tf - s.startTime := by omega
    have N2 : tf - s.startTime ≤ 60 * loggedMinutes new + 60 * (new.length + 1) := by omega
    have hq1 : (60 : ℚ) * (loggedMinutes new : ℚ) ≤ ((tf - s.startTime : Nat) : ℚ) := by
      exact_mod_cast N1
    have hq2 : ((tf - s.startTime : Nat) : ℚ) ≤
        60 * (loggedMinutes new : ℚ) + 60 * ((new.length : ℚ) + 1) := by
      exact_mod_cast N2
    refine ⟨hkwh, N1, N2, ?_, ?_⟩ <;>
      rw [hkwh] <;>
        rcases hmode : s.hvac.mode <;>
          simp only [hmode, ratePerHour] at * <;> linarith

/-- A controller state in a continuous heat run: heater on since
t = 10 s, empty energy log. -/
def c3Start : SysState :=
  { zeroSys with
    hvac := { zeroSys.hvac with mode := HVACMode.heat, isRunning := true },
    startTime := 10 }

/-- Witness for C3 (amended) at the run from t = 10 s with no periodic
flush and the final flush at t = 130 s. -/
theorem energy_run_bound_witness :
    loggedKwh (logRuntime (runPeriodic c3Start []) 130).energyLogs =
      ratePerHour c3Start.hvac.mode *
        ((loggedMinutes (logRuntime (runPeriodic c3Start []) 130).energyLogs : ℚ)) / 60 ∧
    60 * loggedMinutes (logRuntime (runPeriodic c3Start []) 130).energyLogs ≤
      130 - c3Start.startTime ∧
    130 - c3Start.startTime ≤
      60 * loggedMinutes (logRuntime (runPeriodic c3Start []) 130).energyLogs +
        60 * ((logRuntime (runPeriodic c3Start []) 130).energyLogs.length + 1) ∧
    0 ≤ ratePerHour c3Start.hvac.mode * (((130 - c3Start.startTime : Nat) : ℚ) / 60) / 60 -
        loggedKwh (logRuntime (runPeriodic c3Start []) 130).energyLogs ∧
    ratePerHour c3Start.hvac.mode * (((130 - c3Start.startTime : Nat) : ℚ) / 60) / 60 -
        loggedKwh (logRuntime (runPeriodic c3Start []) 130).energyLogs ≤
      (((logRuntime (runPeriodic c3Start []) 130).energyLogs.length : ℚ) + 1) *
        (ratePerHour c3Start.hvac.mode / 60) :=
  energy_run_bound c3Start [] 130 (by norm_num [c3Start, zeroSys]) rfl
    (List.Chain.cons (by norm_num [c3Start, zeroSys]) List.Chain.nil)

/-- Claim C3 counterexample: heater running continuously from t = 10 s,
periodic flushes invoked at t = 180 s and t = 350 s, final flush at
t = 520 s (a run of 510 s = 8.5 minutes).  Each of the three flushes
logs 2 whole minutes, so 0.25 kWh is logged against the exact
2.5 kWh/h x 8.5 min / 60 ≈ 0.354 kWh: the shortfall is 2.5 minutes'
worth of energy, more than the one minute the claim allows regardless
of flush count. -/
theorem energy_one_minute_bound_counterexample :
    ratePerHour HVACMode.heat * (((520 - 10 : Nat) : ℚ) / 60) / 60 -
        loggedKwh (logRuntime (runPeriodic c3Start [180, 350]) 520).energyLogs >
      ratePerHour HVACMode.heat * 1 / 60 := by
  norm_num [c3Start, zeroSys, runPeriodic, List.foldl_cons, List.foldl_nil, logRuntime,
    logPeriodicRuntime, flushRecord, loggedKwh, estimateEnergyUsage, ratePerHour]

end Thermostat
